import Mathlib

/-!
Verification of the token-based authentication and session-security subsystem
of the HealthCare chatbot service.

The definitions below are a shallow embedding of the Python source:
  * `src/utils/refresh_token_service.py`  (refresh-token ledger)
  * `src/utils/auth_security.py`          (brute-force guard, Redis + DB fallback)
  * `src/utils/auth_service.py`           (authenticate_user orchestration)
  * `src/utils/token_validator.py`        (access-token codec, via python-jose)
  * `src/utils/token_blacklist_db.py`     (revocation registry over login_attempts)
  * `src/utils/auth_dependencies.py`      (get_current_user / verify)
  * `src/api/auth.py`                     (login / logout endpoints)

Timestamps are modelled as natural numbers (seconds).  A SQLAlchemy table is
modelled as a `List` of records; `query(...).first()` is the first list element
satisfying the filter, `.delete()` is `List.filter` with the negated condition,
and a mutating update of the selected row is an in-place functional update of
that element.  `try/except` blocks around storage calls are modelled with
`Except` or with explicit failure flags, following each function's handler.
-/

/-! ### Configuration constants (src/config.py, defaults) -/

/-- `settings.MAX_LOGIN_ATTEMPTS` (default 3). -/
def MAX_LOGIN_ATTEMPTS : Nat := 3

/-- `settings.LOCKOUT_TIME` in seconds (default 120). -/
def LOCKOUT_TIME : Nat := 120

/-- `settings.ENABLE_ACCOUNT_LOCKING` (default true). -/
def ENABLE_ACCOUNT_LOCKING : Bool := true

/-- `settings.REFRESH_TOKEN_MAX_COUNT` (default 5). -/
def REFRESH_TOKEN_MAX_COUNT : Nat := 5

/-- `settings.REFRESH_TOKEN_EXPIRE_DAYS` (default 7), converted to seconds. -/
def REFRESH_TOKEN_EXPIRE_SECONDS : Nat := 7 * 86400

/-- `cleanup_user_tokens` deletes tokens whose expiry lies more than 30 days in
the past (`timedelta(days=30)` in seconds). -/
def CLEANUP_RETENTION : Nat := 30 * 86400

/-- `is_blacklisted` treats entries from the last 24 hours as valid
(`timedelta(hours=24)` in seconds). -/
def BLACKLIST_WINDOW : Nat := 24 * 3600

/-! ### Refresh-token ledger (src/utils/refresh_token_service.py)

One row of the `refresh_tokens` table (src/database/models.py, `RefreshToken`).
The `token` column carries a UNIQUE constraint. -/

structure RefreshTokenRec where
  token : String
  userId : Nat
  expiresAt : Nat
  isRevoked : Bool
  createdAt : Nat
  lastUsedAt : Option Nat
  ipAddress : Option String
  userAgent : Option String
deriving Repr, DecidableEq

/-- Update the first record of the list satisfying `p` by `f`; the SQLAlchemy
pattern `query(...).first()` followed by a field assignment and `commit()`. -/
def updateFirstRec (p : RefreshTokenRec → Bool) (f : RefreshTokenRec → RefreshTokenRec) :
    List RefreshTokenRec → List RefreshTokenRec
  | [] => []
  | r :: rs => if p r then f r :: rs else r :: updateFirstRec p f rs

/-- Minimum of a list of naturals, `none` on the empty list (models
`ORDER BY created_at ASC ... first()` picking the smallest key). -/
def minNat? : List Nat → Option Nat
  | [] => none
  | x :: xs =>
    match minNat? xs with
    | none => some x
    | some m => some (min x m)

/-- `RefreshTokenService.cleanup_user_tokens`: deletes this user's tokens with
`expires_at < utcnow() - 30 days`; the condition is written additively
(`expires_at + 30 days < now`) to avoid truncated subtraction on `Nat`. -/
def cleanup_user_tokens (db : List RefreshTokenRec) (uid now : Nat) : List RefreshTokenRec :=
  db.filter (fun r => !(r.userId == uid && decide (r.expiresAt + CLEANUP_RETENTION < now)))

/-- The count of the user's active tokens in `create_refresh_token`:
`is_revoked == False` and `expires_at > utcnow()`. -/
def active_count (db : List RefreshTokenRec) (uid now : Nat) : Nat :=
  db.countP (fun r => r.userId == uid && !r.isRevoked && decide (now < r.expiresAt))

/-- The eviction step of `create_refresh_token`: the oldest token of the user
with `is_revoked == False` (note: no expiry filter in the source query),
ordered by `created_at`, is marked revoked. -/
def revoke_oldest (db : List RefreshTokenRec) (uid : Nat) : List RefreshTokenRec :=
  match minNat? ((db.filter (fun r => r.userId == uid && !r.isRevoked)).map
      (fun r => r.createdAt)) with
  | none => db
  | some m =>
    updateFirstRec (fun r => r.userId == uid && !r.isRevoked && r.createdAt == m)
      (fun r => { r with isRevoked := true }) db

/-- The conditional eviction step of `create_refresh_token`: when the active
count has reached `REFRESH_TOKEN_MAX_COUNT`, the oldest non-revoked token is
revoked (and that change committed on its own). -/
def evict_if_full (db : List RefreshTokenRec) (uid now : Nat) : List RefreshTokenRec :=
  if REFRESH_TOKEN_MAX_COUNT ≤ active_count db uid now then revoke_oldest db uid else db

/-- The insertion step of `create_refresh_token`.  The UNIQUE constraint on
`token` makes the insert fail (rolled back by the exception handler) when the
generated value already exists; the earlier eviction commit is not undone in
that case. -/
def insert_refresh_token (db : List RefreshTokenRec) (uid now : Nat) (tok : String)
    (ip agent : Option String) : List RefreshTokenRec :=
  if db.any (fun r => r.token == tok) then db
  else db ++ [{ token := tok, userId := uid, expiresAt := now + REFRESH_TOKEN_EXPIRE_SECONDS,
                isRevoked := false, createdAt := now, lastUsedAt := none,
                ipAddress := ip, userAgent := agent }]

/-- `RefreshTokenService.create_refresh_token`: cleanup, count the active
tokens, evict the oldest non-revoked token when the count has reached
`REFRESH_TOKEN_MAX_COUNT`, then insert the new record with
`expires_at = now + REFRESH_TOKEN_EXPIRE_DAYS`. -/
def create_refresh_token (db : List RefreshTokenRec) (uid now : Nat) (tok : String)
    (ip agent : Option String) : List RefreshTokenRec :=
  insert_refresh_token (evict_if_full (cleanup_user_tokens db uid now) uid now) uid now tok
    ip agent

/-- `RefreshTokenService.validate_refresh_token`.  `userExists` models the
`query(User).filter(User.id == ...)` lookup.  Returns the validated record (if
any) together with the updated table. -/
def validate_refresh_token (db : List RefreshTokenRec) (tok : String) (now : Nat)
    (userExists : Nat → Bool) : Option RefreshTokenRec × List RefreshTokenRec :=
  match db.find? (fun r => r.token == tok && !r.isRevoked) with
  | none => (none, db)
  | some r =>
    if r.expiresAt < now then
      (none, updateFirstRec (fun r' => r'.token == tok && !r'.isRevoked)
        (fun r' => { r' with isRevoked := true }) db)
    else if !userExists r.userId then (none, db)
    else
      (some { r with lastUsedAt := some now },
       updateFirstRec (fun r' => r'.token == tok && !r'.isRevoked)
         (fun r' => { r' with lastUsedAt := some now }) db)

/-- `RefreshTokenService.revoke_refresh_token`: returns whether a non-revoked
record with this value was found, marking it revoked if so. -/
def revoke_refresh_token (db : List RefreshTokenRec) (tok : String) :
    Bool × List RefreshTokenRec :=
  match db.find? (fun r => r.token == tok && !r.isRevoked) with
  | none => (false, db)
  | some _ =>
    (true, updateFirstRec (fun r' => r'.token == tok && !r'.isRevoked)
      (fun r' => { r' with isRevoked := true }) db)

/-- `RefreshTokenService.revoke_all_user_tokens`: marks every non-revoked token
of the user revoked, returning the count. -/
def revoke_all_user_tokens (db : List RefreshTokenRec) (uid : Nat) :
    Nat × List RefreshTokenRec :=
  (db.countP (fun r => r.userId == uid && !r.isRevoked),
   db.map (fun r => if r.userId == uid && !r.isRevoked then { r with isRevoked := true } else r))

/-! ### Brute-force guard (src/utils/auth_security.py)

Redis keys are modelled as `Option (Nat × Nat)`: the stored value together
with the key's expiry time (`setex` sets both).  `redisRead` models `GET`,
which no longer sees a key whose TTL has elapsed. -/

structure GuardState where
  failCnt : Option (Nat × Nat)
  lockKey : Option (Nat × Nat)
deriving Repr, DecidableEq

/-- Redis `GET` of a key with a TTL: the value while `now` is before the
expiry, `None` afterwards. -/
def redisRead (entry : Option (Nat × Nat)) (now : Nat) : Option Nat :=
  match entry with
  | some (v, e) => if now < e then some v else none
  | none => none

/-- Connection state of the module-level Redis client: `availableAtImport` is
`REDIS_AVAILABLE` (the `ping()` at import time); `opFails` says whether a Redis
command issued now raises (connection error / timeout at operation time). -/
structure RedisConn where
  availableAtImport : Bool
  opFails : Bool
deriving Repr, DecidableEq

/-- Core of `is_account_locked` when the Redis `GET` succeeds: the account is
locked while the stored `lock_until` lies in the future, with the remaining
seconds. -/
def is_account_locked_core (s : GuardState) (now : Nat) : Bool × Nat :=
  match redisRead s.lockKey now with
  | some u => if now < u then (true, u - now) else (false, 0)
  | none => (false, 0)

/-- `is_account_locked` (Redis path): if locking is disabled, not locked; if
`REDIS_AVAILABLE`, try Redis — an exception is caught, logged, and the function
falls through to `return False, 0`; if Redis was not available at import, it
likewise returns `False, 0` ("No cache available"). -/
def is_account_locked (conn : RedisConn) (s : GuardState) (now : Nat) : Bool × Nat :=
  if !ENABLE_ACCOUNT_LOCKING then (false, 0)
  else if conn.availableAtImport then
    if conn.opFails then (false, 0)
    else is_account_locked_core s now
  else (false, 0)

/-- Core of `record_failed_login` when Redis commands succeed: increment the
counter (absent or expired counts as 0); on reaching `MAX_LOGIN_ATTEMPTS`,
`setex` the lock key for `LOCKOUT_TIME` seconds with value `now + LOCKOUT_TIME`
and delete the counter, otherwise `setex` the counter for `LOCKOUT_TIME`
seconds.  Returns the new failure count. -/
def record_failed_login_core (s : GuardState) (now : Nat) : Nat × GuardState :=
  let failures := (redisRead s.failCnt now).getD 0 + 1
  if MAX_LOGIN_ATTEMPTS ≤ failures then
    (failures, { failCnt := none, lockKey := some (now + LOCKOUT_TIME, now + LOCKOUT_TIME) })
  else
    (failures, { failCnt := some (failures, now + LOCKOUT_TIME), lockKey := s.lockKey })

/-- `record_failed_login`: disabled locking returns the dummy count 1; a Redis
exception is caught and the function returns the dummy count 1 without touching
any backend; the same happens when Redis was unavailable at import. -/
def record_failed_login (conn : RedisConn) (s : GuardState) (now : Nat) : Nat × GuardState :=
  if !ENABLE_ACCOUNT_LOCKING then (1, s)
  else if conn.availableAtImport then
    if conn.opFails then (1, s)
    else record_failed_login_core s now
  else (1, s)

/-- `clear_login_attempts`: deletes the failure counter and the lock key (when
Redis is reachable; otherwise the state is untouched). -/
def clear_login_attempts (conn : RedisConn) (s : GuardState) : GuardState :=
  if !ENABLE_ACCOUNT_LOCKING then s
  else if conn.availableAtImport && !conn.opFails then { failCnt := none, lockKey := none }
  else s

/-! ### Database fallback of the guard (rows of `login_attempts`) -/

structure LoginAttemptRow where
  email : String
  attemptTime : Nat
  success : Bool
  ipAddress : String
  userAgent : String
  failureReason : List Char
deriving Repr, DecidableEq

/-- A failed attempt of this email inside the lockout window
(`attempt_time > utcnow() - LOCKOUT_TIME`, written additively). -/
def recentFailure (email : String) (now : Nat) (e : LoginAttemptRow) : Bool :=
  e.email == email && !e.success && decide (now < e.attemptTime + LOCKOUT_TIME)

/-- Latest failure time of this email (`ORDER BY attempt_time DESC ... first()`,
over all failures, not only recent ones). -/
def lastFailureTime (db : List LoginAttemptRow) (email : String) : Option Nat :=
  ((db.filter (fun e => e.email == email && !e.success)).map
      (fun e => e.attemptTime)).foldr (fun t acc =>
    match acc with
    | none => some t
    | some m => some (max t m)) none

/-- `is_account_locked_db`: counts recent failures; at `MAX_LOGIN_ATTEMPTS` or
more, the lock runs until `LOCKOUT_TIME` after the last failure, and the
remaining seconds are reported while positive. -/
def is_account_locked_db (db : List LoginAttemptRow) (email : String) (now : Nat) : Bool × Nat :=
  if !ENABLE_ACCOUNT_LOCKING then (false, 0)
  else if MAX_LOGIN_ATTEMPTS ≤ (db.filter (recentFailure email now)).length then
    match lastFailureTime db email with
    | some lf => if now < lf + LOCKOUT_TIME then (true, lf + LOCKOUT_TIME - now) else (false, 0)
    | none => (false, 0)
  else (false, 0)

/-- `record_failed_login_db`: appends one immutable failure row. -/
def record_failed_login_db (db : List LoginAttemptRow) (email : String) (now : Nat)
    (ip agent : String) (reason : List Char) : List LoginAttemptRow :=
  db ++ [{ email := email, attemptTime := now, success := false,
           ipAddress := ip, userAgent := agent, failureReason := reason }]

/-- `clear_login_attempts_db`: deletes the recent failed attempts of the email
(only those inside the lockout window). -/
def clear_login_attempts_db (db : List LoginAttemptRow) (email : String) (now : Nat) :
    List LoginAttemptRow :=
  db.filter (fun e => !(recentFailure email now e))

/-- `record_successful_login_db`: appends one success row. -/
def record_successful_login_db (db : List LoginAttemptRow) (email : String) (now : Nat)
    (ip agent : String) : List LoginAttemptRow :=
  db ++ [{ email := email, attemptTime := now, success := true,
           ipAddress := ip, userAgent := agent, failureReason := [] }]

/-! ### authenticate_user orchestration (src/utils/auth_service.py)

The source dispatches on the module-level `REDIS_AVAILABLE` flag: the Redis
guard functions when the flag is true, the database fallback otherwise.  The
outcome taxonomy mirrors the exceptions / return values of
`authenticate_user`. -/

inductive AuthOutcome where
  /-- `HTTPException 423` raised by the lock check, carrying
  `retry_after_seconds`. -/
  | lockedOut (remaining : Nat)
  /-- The identifier matches no user: `authenticate_user` records a failure
  and `return False`; the endpoint then raises its own generic 401. -/
  | userNotFound
  /-- Wrong password: `HTTPException 401` with `remaining_attempts` and the
  `account_locked` flag in the detail. -/
  | wrongPassword (remainingAttempts : Nat) (accountLocked : Bool)
  /-- Credentials accepted; failure state cleared. -/
  | success
deriving Repr, DecidableEq

/-- The lock check at the top of `authenticate_user`:
`is_account_locked(email)` when `REDIS_AVAILABLE`, else
`is_account_locked_db(db, email)`. -/
def lock_check_dispatch (conn : RedisConn) (s : GuardState) (dbAtt : List LoginAttemptRow)
    (email : String) (now : Nat) : Bool × Nat :=
  if conn.availableAtImport then is_account_locked conn s now
  else is_account_locked_db dbAtt email now

/-- Recent-failure count used for `remaining_attempts` in the DB-fallback
wrong-password branch of `authenticate_user`. -/
def recent_failure_count (db : List LoginAttemptRow) (email : String) (now : Nat) : Nat :=
  (db.filter (recentFailure email now)).length

/-- `authenticate_user`: lock check, user lookup, password check, and the
corresponding failure recording / state clearing on each backend.  The state
threaded through is the pair of guard backends (Redis key space, and the
`login_attempts` table used by the DB fallback). -/
def authenticate_user (conn : RedisConn) (s : GuardState) (dbAtt : List LoginAttemptRow)
    (email : String) (userExists passwordOk : Bool) (now : Nat) (ip agent : String) :
    AuthOutcome × GuardState × List LoginAttemptRow :=
  let lk := lock_check_dispatch conn s dbAtt email now
  if lk.1 then (.lockedOut lk.2, s, dbAtt)
  else if !userExists then
    if conn.availableAtImport then (.userNotFound, (record_failed_login conn s now).2, dbAtt)
    else (.userNotFound, s,
      record_failed_login_db dbAtt email now ip agent "user_not_found".toList)
  else if !passwordOk then
    if conn.availableAtImport then
      let fs := record_failed_login conn s now
      (.wrongPassword (MAX_LOGIN_ATTEMPTS - (fs.1 - 1))
        (decide (MAX_LOGIN_ATTEMPTS - (fs.1 - 1) = 0)), fs.2, dbAtt)
    else
      let dbAtt1 := record_failed_login_db dbAtt email now ip agent "invalid_password".toList
      let lk1 := is_account_locked_db dbAtt1 email now
      let remaining := if lk1.1 then 0
        else MAX_LOGIN_ATTEMPTS - recent_failure_count dbAtt1 email now
      (.wrongPassword remaining (decide (remaining = 0)), s, dbAtt1)
  else
    if conn.availableAtImport then (.success, clear_login_attempts conn s, dbAtt)
    else (.success, s,
      record_successful_login_db (clear_login_attempts_db dbAtt email now) email now ip agent)

/-! ### External error shape of the login endpoint (src/api/auth.py)

`login_for_access_token` maps `authenticate_user` outcomes to HTTP responses:
a `False` return (unknown identifier) hits the endpoint's own
`HTTPException(401, {"message": "Authentication failed"},
headers={"WWW-Authenticate": "Bearer"})`, while the wrong-password
`HTTPException(401, {"message": "Incorrect email or password",
"remaining_attempts": ..., "account_locked": ...})` raised inside
`authenticate_user` propagates unchanged. -/

structure ErrShape where
  statusCode : Nat
  detailKeys : List String
  message : String
  hasWwwAuthHeader : Bool
deriving Repr, DecidableEq

/-- External error shape of the login endpoint for each failing outcome
(`none` on success). -/
def login_error_shape : AuthOutcome → Option ErrShape
  | .lockedOut _ =>
    some { statusCode := 423, detailKeys := ["message", "retry_after_seconds"],
           message := "Account locked due to too many failed login attempts",
           hasWwwAuthHeader := false }
  | .userNotFound =>
    some { statusCode := 401, detailKeys := ["message"],
           message := "Authentication failed", hasWwwAuthHeader := true }
  | .wrongPassword _ _ =>
    some { statusCode := 401,
           detailKeys := ["message", "remaining_attempts", "account_locked"],
           message := "Incorrect email or password", hasWwwAuthHeader := false }
  | .success => none

/-! ### Access-token codec (src/utils/token_validator.py)

`TokenValidator.decode_token` delegates to python-jose's `jwt.decode`, which
(i) parses the compact serialization, (ii) verifies the signature, and only
then (iii) validates claims; `_validate_exp` raises `ExpiredSignatureError`
precisely when `exp < timegm(datetime.utcnow().utctimetuple())` (strict
comparison, zero leeway), with times truncated to whole seconds.  The token is
modelled by what those three stages observe. -/

structure JwtToken where
  /-- The compact serialization parses as a JWT (`JWTError` otherwise). -/
  wellFormed : Bool
  /-- The signature verifies under the configured secret and algorithm. -/
  sigValid : Bool
  /-- The `exp` claim (seconds), when present. -/
  exp : Option Nat
  /-- The `sub` claim, when present. -/
  sub : Option String
  /-- The `role` claim, when present. -/
  role : Option String
deriving Repr, DecidableEq

/-- Decoded claim set returned on success. -/
structure TokenPayload where
  sub : Option String
  role : Option String
  exp : Option Nat
deriving Repr, DecidableEq

/-- Error taxonomy of `TokenValidationError.error_type` as produced by
`decode_token`'s exception handlers. -/
inductive TokenErr where
  | expired
  | invalidFormat
  | signatureInvalid
  | missingClaims
  | invalidEmail
deriving Repr, DecidableEq

/-- `TokenValidator.decode_token`: malformed tokens and bad signatures map to
`JWTError` handlers; an `exp` claim strictly in the past raises
`ExpiredSignatureError` mapped to `expired`; otherwise the payload is
returned. -/
def decode_token (t : JwtToken) (now : Nat) : Except TokenErr TokenPayload :=
  if !t.wellFormed then .error .invalidFormat
  else if !t.sigValid then .error .signatureInvalid
  else
    match t.exp with
    | some e => if e < now then .error .expired
                else .ok { sub := t.sub, role := t.role, exp := t.exp }
    | none => .ok { sub := t.sub, role := t.role, exp := t.exp }

/-! ### Revocation registry (src/utils/token_blacklist_db.py)

Blacklist entries are stored as rows of `login_attempts` with
`ip_address = "blacklist_system"`, `success = False` and
`failure_reason = f"blacklisted:{reason}:{token_hash}"` where `token_hash` is
the SHA-256 hex digest of the raw token (64 lowercase hex characters).  The
hash function is kept abstract (`hashFn`); `isHex64` captures the shape of
every SHA-256 hex digest. -/

/-- Lowercase hexadecimal digit, the alphabet of `hashlib.sha256(...).hexdigest()`. -/
def isHexChar (c : Char) : Bool :=
  ('0' ≤ c && c ≤ '9') || ('a' ≤ c && c ≤ 'f')

/-- Shape of a SHA-256 hex digest: 64 lowercase hex characters. -/
def isHex64 (h : List Char) : Prop :=
  h.length = 64 ∧ ∀ c ∈ h, isHexChar c = true

instance (h : List Char) : Decidable (isHex64 h) :=
  inferInstanceAs (Decidable (h.length = 64 ∧ ∀ c ∈ h, isHexChar c = true))

/-- The `failure_reason` written by `add_to_blacklist`:
`f"blacklisted:{reason}:{token_hash}"`. -/
def blacklistReason (reason : String) (h : List Char) : List Char :=
  "blacklisted:".toList ++ reason.toList ++ (':' :: h)

/-- The `failure_reason` written by `revoke_user_tokens`:
`f"blacklisted:{reason}:revoked_all_tokens"` — a fixed literal in place of a
token hash. -/
def revokeAllReason (reason : String) : List Char :=
  "blacklisted:".toList ++ reason.toList ++ (':' :: "revoked_all_tokens".toList)

/-- SQL `LIKE f"blacklisted:%:{token_hash}"` on a `failure_reason` column:
the string is `"blacklisted:"`, then anything, then `':'` followed by the
queried hash. -/
def likeBlacklistMatch (h : List Char) (s : List Char) : Bool :=
  "blacklisted:".toList.isPrefixOf s && (':' :: h).isSuffixOf s &&
    decide ("blacklisted:".toList.length + 1 + h.length ≤ s.length)

/-- Row filter of `is_blacklisted`: `failure_reason LIKE "blacklisted:%:hash"`,
`success == False`, `ip_address == "blacklist_system"`. -/
def blacklistRowMatch (h : List Char) (e : LoginAttemptRow) : Bool :=
  likeBlacklistMatch h e.failureReason && !e.success && e.ipAddress == "blacklist_system"

/-- Body of `is_blacklisted` once the rows have been fetched: the first
matching row counts while younger than 24 hours
(`attempt_time > utcnow() - 24h`, written additively). -/
def is_blacklisted_rows (db : List LoginAttemptRow) (h : List Char) (now : Nat) : Bool :=
  match db.find? (blacklistRowMatch h) with
  | some e => decide (now < e.attemptTime + BLACKLIST_WINDOW)
  | none => false

/-- `TokenBlacklistDB.is_blacklisted`: the whole lookup sits in a
`try/except` whose handler logs and returns `False`; the `Except` argument is
the outcome of reaching the durable store. -/
def is_blacklisted (store : Except Unit (List LoginAttemptRow)) (h : List Char)
    (now : Nat) : Bool :=
  match store with
  | .error _ => false
  | .ok db => is_blacklisted_rows db h now

/-- `TokenBlacklistDB.add_to_blacklist`: appends one blacklist row keyed by the
token's hash (the decoded `expires_at` is computed but not stored). -/
def add_to_blacklist (db : List LoginAttemptRow) (h : List Char) (reason email : String)
    (now : Nat) : List LoginAttemptRow :=
  db ++ [{ email := email, attemptTime := now, success := false,
           ipAddress := "blacklist_system", userAgent := "token_blacklist",
           failureReason := blacklistReason reason h }]

/-- Recent successful login of this user (last 7 days), the rows
`revoke_user_tokens` iterates over. -/
def recentSuccessRow (email : String) (now : Nat) (e : LoginAttemptRow) : Bool :=
  e.email == email && e.success && decide (now < e.attemptTime + 7 * 86400)

/-- `TokenBlacklistDB.revoke_user_tokens`: for every recent successful login of
the user it appends one blacklist row whose `failure_reason` ends in the
literal `"revoked_all_tokens"` (the raw tokens are unknown), returning the
count. -/
def revoke_user_tokens (db : List LoginAttemptRow) (email reason : String) (now : Nat) :
    Nat × List LoginAttemptRow :=
  let n := (db.filter (recentSuccessRow email now)).length
  (n, db ++ List.replicate n
    { email := email, attemptTime := now, success := false,
      ipAddress := "blacklist_system", userAgent := "user_revocation",
      failureReason := revokeAllReason reason })

/-! ### Verify path (src/utils/auth_dependencies.py) and logout (src/api/auth.py) -/

/-- Error taxonomy of `get_current_user`.  There is no revoked/blacklisted
outcome: the dependency never consults `TokenBlacklistDB`. -/
inductive VerifyErr where
  /-- 500: Supabase client not initialized. -/
  | clientNotInitialized
  /-- 401: `supabase.auth.get_user` rejected the bearer token. -/
  | invalidCredentials
  /-- 404: no profile row for the Supabase user id. -/
  | profileNotFound
deriving Repr, DecidableEq

/-- `get_current_user`: verifies the bearer token with Supabase auth and loads
the profile row; the blacklist table is never queried on this path. -/
def get_current_user (clientInit : Bool) (supaAccepts : String → Option Nat)
    (profileExists : Nat → Bool) (token : String) : Except VerifyErr Nat :=
  if !clientInit then .error .clientNotInitialized
  else
    match supaAccepts token with
    | none => .error .invalidCredentials
    | some uid => if profileExists uid then .ok uid else .error .profileNotFound

/-- Server-side state the logout endpoint mutates: the `login_attempts` table
(carrying the blacklist rows) and the refresh-token ledger. -/
structure SessionStores where
  attempts : List LoginAttemptRow
  refreshTokens : List RefreshTokenRec
deriving Repr, DecidableEq

/-- The `POST /logout` endpoint after `get_current_user` succeeded:
blacklists the presented access token (by hash) and revokes every refresh
token of the user. -/
def logout (st : SessionStores) (tokenHash : List Char) (email : String) (uid now : Nat) :
    SessionStores :=
  { attempts := add_to_blacklist st.attempts tokenHash "logout" email now,
    refreshTokens := (revoke_all_user_tokens st.refreshTokens uid).2 }

/-! ### Operation alphabet of the refresh-token ledger, for temporal claims -/

inductive LedgerOp where
  | create (uid now : Nat) (tok : String)
  | validate (tok : String) (now : Nat)
  | revoke (tok : String)
  | revokeAll (uid : Nat)
  | cleanup (uid now : Nat)
deriving Repr, DecidableEq

/-- State effect of one ledger operation. -/
def applyLedgerOp (userExists : Nat → Bool) (db : List RefreshTokenRec) :
    LedgerOp → List RefreshTokenRec
  | .create uid now tok => create_refresh_token db uid now tok none none
  | .validate tok now => (validate_refresh_token db tok now userExists).2
  | .revoke tok => (revoke_refresh_token db tok).2
  | .revokeAll uid => (revoke_all_user_tokens db uid).2
  | .cleanup uid now => cleanup_user_tokens db uid now

/-- State after a sequence of ledger operations. -/
def applyLedgerOps (userExists : Nat → Bool) (db : List RefreshTokenRec)
    (ops : List LedgerOp) : List RefreshTokenRec :=
  ops.foldl (applyLedgerOp userExists) db

/-- The token value a `create` operation inserts, if any. -/
def createdTok : LedgerOp → Option String
  | .create _ _ tok => some tok
  | _ => none

/-- Every stored record with this token value is marked revoked. -/
def allRevokedFor (db : List RefreshTokenRec) (v : String) : Prop :=
  ∀ r ∈ db, r.token = v → r.isRevoked = true

instance (db : List RefreshTokenRec) (v : String) : Decidable (allRevokedFor db v) :=
  inferInstanceAs (Decidable (∀ r ∈ db, r.token = v → r.isRevoked = true))

/-! #### Preservation lemmas for `allRevokedFor` -/

theorem allRevokedFor_updateFirstRec (db : List RefreshTokenRec) (v : String)
    (p : RefreshTokenRec → Bool) (f : RefreshTokenRec → RefreshTokenRec)
    (htok : ∀ r, (f r).token = r.token)
    (hrev : ∀ r, r.isRevoked = true → (f r).isRevoked = true)
    (h : allRevokedFor db v) : allRevokedFor (updateFirstRec p f db) v := by
  induction db with
  | nil => simpa [updateFirstRec] using h
  | cons r rs ih =>
    intro x hx hxv
    by_cases hp : p r
    · simp only [updateFirstRec, if_pos hp] at hx
      rcases List.mem_cons.mp hx with h1 | h2
      · subst h1
        exact hrev r (h r (by simp) ((htok r) ▸ hxv))
      · exact h x (List.mem_cons_of_mem r h2) hxv
    · simp only [updateFirstRec, if_neg hp] at hx
      rcases List.mem_cons.mp hx with h1 | h2
      · exact h x (h1 ▸ List.mem_cons_self r rs) hxv
      · exact ih (fun y hy hyv => h y (List.mem_cons_of_mem r hy) hyv) x h2 hxv

theorem allRevokedFor_filter (db : List RefreshTokenRec) (v : String)
    (q : RefreshTokenRec → Bool) (h : allRevokedFor db v) :
    allRevokedFor (db.filter q) v :=
  fun r hr hv => h r (List.mem_of_mem_filter hr) hv

theorem allRevokedFor_revoke_oldest (db : List RefreshTokenRec) (v : String) (uid : Nat)
    (h : allRevokedFor db v) : allRevokedFor (revoke_oldest db uid) v := by
  unfold revoke_oldest
  cases minNat? ((db.filter (fun r => r.userId == uid && !r.isRevoked)).map
      (fun r => r.createdAt)) with
  | none => exact h
  | some m =>
    exact allRevokedFor_updateFirstRec db v _ _ (fun r => rfl) (fun r _ => rfl) h

theorem allRevokedFor_create (db : List RefreshTokenRec) (v : String) (uid now : Nat)
    (tok : String) (ip agent : Option String) (hne : tok ≠ v)
    (h : allRevokedFor db v) :
    allRevokedFor (create_refresh_token db uid now tok ip agent) v := by
  have h1 : allRevokedFor (cleanup_user_tokens db uid now) v :=
    allRevokedFor_filter db v _ h
  have h2 : allRevokedFor (evict_if_full (cleanup_user_tokens db uid now) uid now) v := by
    unfold evict_if_full
    split
    · exact allRevokedFor_revoke_oldest _ v uid h1
    · exact h1
  unfold create_refresh_token insert_refresh_token
  split
  · exact h2
  · intro r hr hv
    rcases List.mem_append.mp hr with h3 | h3
    · exact h2 r h3 hv
    · simp only [List.mem_singleton] at h3
      subst h3
      exact absurd hv hne

theorem allRevokedFor_validate (db : List RefreshTokenRec) (v : String) (tok : String)
    (now : Nat) (userExists : Nat → Bool) (h : allRevokedFor db v) :
    allRevokedFor (validate_refresh_token db tok now userExists).2 v := by
  unfold validate_refresh_token
  cases db.find? (fun r => r.token == tok && !r.isRevoked) with
  | none => exact h
  | some r =>
    by_cases he : r.expiresAt < now
    · simpa [he] using
        allRevokedFor_updateFirstRec db v
          (fun r' => r'.token == tok && !r'.isRevoked)
          (fun r' => { r' with isRevoked := true }) (fun r' => rfl)
          (fun r' _ => rfl) h
    · by_cases hu : userExists r.userId
      · simpa [he, hu] using
          allRevokedFor_updateFirstRec db v
            (fun r' => r'.token == tok && !r'.isRevoked)
            (fun r' => { r' with lastUsedAt := some now }) (fun r' => rfl)
            (fun r' hr' => hr') h
      · simpa [he, hu] using h

theorem allRevokedFor_revoke (db : List RefreshTokenRec) (v : String) (tok : String)
    (h : allRevokedFor db v) : allRevokedFor (revoke_refresh_token db tok).2 v := by
  unfold revoke_refresh_token
  cases db.find? (fun r => r.token == tok && !r.isRevoked) with
  | none => exact h
  | some r =>
    exact allRevokedFor_updateFirstRec db v
      (fun r' => r'.token == tok && !r'.isRevoked)
      (fun r' => { r' with isRevoked := true }) (fun r' => rfl) (fun r' _ => rfl) h

theorem allRevokedFor_revokeAll (db : List RefreshTokenRec) (v : String) (uid : Nat)
    (h : allRevokedFor db v) : allRevokedFor (revoke_all_user_tokens db uid).2 v := by
  intro r hr hv
  unfold revoke_all_user_tokens at hr
  simp only [List.mem_map] at hr
  obtain ⟨r0, hr0, heq⟩ := hr
  by_cases hc : (r0.userId == uid && !r0.isRevoked) = true
  · rw [← heq]; simp [hc]
  · rw [← heq] at hv ⊢
    rw [if_neg hc] at hv ⊢
    exact h r0 hr0 hv

/-- Under `allRevokedFor`, no non-revoked record with the value remains to be
found. -/
theorem find_nonrevoked_eq_none (db : List RefreshTokenRec) (v : String)
    (h : allRevokedFor db v) :
    db.find? (fun r => r.token == v && !r.isRevoked) = none := by
  apply List.find?_eq_none.mpr
  intro r hr
  by_cases ht : r.token = v
  · simp [ht, h r hr ht]
  · simp [ht]

/-- Under `allRevokedFor`, the lookup of `validate_refresh_token` finds no
record, so validation fails and the table is untouched. -/
theorem validate_none_of_allRevoked (db : List RefreshTokenRec) (v : String) (now : Nat)
    (userExists : Nat → Bool) (h : allRevokedFor db v) :
    validate_refresh_token db v now userExists = (none, db) := by
  unfold validate_refresh_token
  rw [find_nonrevoked_eq_none db v h]

/-- Marking the first non-revoked record with value `v` revoked leaves every
record with value `v` revoked, when at most one record carries that value
(the UNIQUE constraint of the `token` column). -/
theorem allRevoked_after_mark (db : List RefreshTokenRec) (v : String)
    (huniq : db.countP (fun r => r.token == v) ≤ 1)
    (hex : ∃ r ∈ db, r.token = v ∧ r.isRevoked = false) :
    allRevokedFor (updateFirstRec (fun r => r.token == v && !r.isRevoked)
      (fun r => { r with isRevoked := true }) db) v := by
  induction db with
  | nil => simp at hex
  | cons r rs ih =>
    by_cases hp : (r.token == v && !r.isRevoked) = true
    · simp only [updateFirstRec, if_pos hp]
      have hpv : (r.token == v) = true := by
        simp only [Bool.and_eq_true] at hp
        exact hp.1
      have hone : (r :: rs).countP (fun r' => r'.token == v) =
          rs.countP (fun r' => r'.token == v) + 1 :=
        List.countP_cons_of_pos _ _ hpv
      have hcnt : rs.countP (fun r' => r'.token == v) = 0 := by omega
      intro x hx hxv
      rcases List.mem_cons.mp hx with h1 | h1
      · subst h1; rfl
      · exfalso
        have hz := List.countP_eq_zero.mp hcnt x h1
        simp [hxv] at hz
    · simp only [updateFirstRec, if_neg hp]
      intro x hx hxv
      rcases List.mem_cons.mp hx with h1 | h1
      · subst h1
        by_contra hrev
        apply hp
        simp [hxv, Bool.not_eq_true] at hrev ⊢
        exact hrev
      · have hex' : ∃ r' ∈ rs, r'.token = v ∧ r'.isRevoked = false := by
          obtain ⟨y, hy, hyv, hyr⟩ := hex
          rcases List.mem_cons.mp hy with h2 | h2
          · exfalso; apply hp; subst h2; simp [hyv, hyr]
          · exact ⟨y, h2, hyv, hyr⟩
        have huniq' : rs.countP (fun r' => r'.token == v) ≤ 1 := by
          have := huniq
          rw [List.countP_cons] at this
          omega
        exact ih huniq' hex' x h1 hxv

/-- C6: once every stored record with a refresh-token value is revoked (as
after `revoke`, rotation-eviction, `revoke_all`, or the expiry branch of
`validate`), any further sequence of ledger operations — with `create` calls
inserting fresh random values, as the 256-bit generator guarantees — keeps
every record with that value revoked, and `validate_refresh_token` keeps
failing on it (it returns no record); no operation resurrects a revoked
token. -/
theorem revoked_token_stays_revoked (db : List RefreshTokenRec) (v : String)
    (ops : List LedgerOp) (userExists : Nat → Bool) (now : Nat)
    (h : allRevokedFor db v)
    (hfresh : ∀ op ∈ ops, createdTok op ≠ some v) :
    allRevokedFor (applyLedgerOps userExists db ops) v ∧
      (validate_refresh_token (applyLedgerOps userExists db ops) v now userExists).1 = none := by
  have main : allRevokedFor (applyLedgerOps userExists db ops) v := by
    induction ops generalizing db with
    | nil => simpa [applyLedgerOps] using h
    | cons op rest ih =>
      have h1 : allRevokedFor (applyLedgerOp userExists db op) v := by
        cases op with
        | create uid nw tok =>
          have hne : tok ≠ v := by
            intro hv
            exact (hfresh _ (List.mem_cons_self _ _)) (by simp [createdTok, hv])
          exact allRevokedFor_create db v uid nw tok none none hne h
        | validate tok nw => exact allRevokedFor_validate db v tok nw userExists h
        | revoke tok => exact allRevokedFor_revoke db v tok h
        | revokeAll uid => exact allRevokedFor_revokeAll db v uid h
        | cleanup uid nw => exact allRevokedFor_filter db v _ h
      have hfresh' : ∀ op' ∈ rest, createdTok op' ≠ some v :=
        fun op' hop' => hfresh op' (List.mem_cons_of_mem _ hop')
      simpa [applyLedgerOps, List.foldl_cons] using
        ih (applyLedgerOp userExists db op) h1 hfresh'
  refine ⟨main, ?_⟩
  rw [validate_none_of_allRevoked _ _ _ _ main]

/-- Concrete instantiation of `revoked_token_stays_revoked`: a ledger holding
one revoked record for `"r1"`, followed by a create, a revoke, a validate, a
revoke-all and a cleanup. -/
theorem revoked_token_stays_revoked_witness :
    allRevokedFor
      [{ token := "r1", userId := 1, expiresAt := 1000, isRevoked := true, createdAt := 0,
         lastUsedAt := none, ipAddress := none, userAgent := none }] "r1" ∧
    (validate_refresh_token
      (applyLedgerOps (fun _ => true)
        [{ token := "r1", userId := 1, expiresAt := 1000, isRevoked := true, createdAt := 0,
           lastUsedAt := none, ipAddress := none, userAgent := none }]
        [LedgerOp.create 1 5 "r2", LedgerOp.revoke "r1", LedgerOp.validate "r1" 10,
         LedgerOp.revokeAll 1, LedgerOp.cleanup 1 20])
      "r1" 10 (fun _ => true)).1 = none :=
  ⟨by decide,
   (revoked_token_stays_revoked
      [{ token := "r1", userId := 1, expiresAt := 1000, isRevoked := true, createdAt := 0,
         lastUsedAt := none, ipAddress := none, userAgent := none }] "r1"
      [LedgerOp.create 1 5 "r2", LedgerOp.revoke "r1", LedgerOp.validate "r1" 10,
       LedgerOp.revokeAll 1, LedgerOp.cleanup 1 20]
      (fun _ => true) 10 (by decide) (by decide)).2⟩

/-- C8: for a token value present and active in the ledger (unique by the
`token` UNIQUE constraint), `revoke_refresh_token` returns `true` on the first
call, `false` (not-found no-op) on the second, and the record is revoked after
both calls; neither call raises — the source catches storage errors and
returns a boolean in every path. -/
theorem revoke_refresh_token_idempotent (db : List RefreshTokenRec) (v : String)
    (huniq : db.countP (fun r => r.token == v) ≤ 1)
    (hact : ∃ r ∈ db, r.token = v ∧ r.isRevoked = false) :
    (revoke_refresh_token db v).1 = true ∧
    (revoke_refresh_token (revoke_refresh_token db v).2 v).1 = false ∧
    allRevokedFor (revoke_refresh_token (revoke_refresh_token db v).2 v).2 v := by
  have hsome : (db.find? (fun r => r.token == v && !r.isRevoked)).isSome := by
    rw [List.find?_isSome]
    obtain ⟨r, hr, hv, hrev⟩ := hact
    exact ⟨r, hr, by simp [hv, hrev]⟩
  obtain ⟨r0, hr0⟩ := Option.isSome_iff_exists.mp hsome
  have hfst : revoke_refresh_token db v =
      (true, updateFirstRec (fun r' => r'.token == v && !r'.isRevoked)
        (fun r' => { r' with isRevoked := true }) db) := by
    unfold revoke_refresh_token
    rw [hr0]
  have hmark : allRevokedFor (revoke_refresh_token db v).2 v := by
    rw [hfst]
    exact allRevoked_after_mark db v huniq hact
  have hnone : ((revoke_refresh_token db v).2.find?
      (fun r => r.token == v && !r.isRevoked)) = none :=
    find_nonrevoked_eq_none _ v hmark
  have hgen : ∀ d : List RefreshTokenRec,
      d.find? (fun r => r.token == v && !r.isRevoked) = none →
      revoke_refresh_token d v = (false, d) := by
    intro d hd
    unfold revoke_refresh_token
    rw [hd]
  have hsnd : revoke_refresh_token (revoke_refresh_token db v).2 v =
      (false, (revoke_refresh_token db v).2) := hgen _ hnone
  refine ⟨by rw [hfst], by rw [hsnd], ?_⟩
  rw [hsnd]
  exact hmark

/-- Concrete instantiation of `revoke_refresh_token_idempotent` on a ledger
with one active record for `"r7"`. -/
theorem revoke_refresh_token_idempotent_witness :
    (revoke_refresh_token
      [{ token := "r7", userId := 2, expiresAt := 900, isRevoked := false, createdAt := 3,
         lastUsedAt := none, ipAddress := none, userAgent := none }] "r7").1 = true ∧
    (revoke_refresh_token
      (revoke_refresh_token
        [{ token := "r7", userId := 2, expiresAt := 900, isRevoked := false, createdAt := 3,
           lastUsedAt := none, ipAddress := none, userAgent := none }] "r7").2 "r7").1 = false ∧
    allRevokedFor
      (revoke_refresh_token
        (revoke_refresh_token
          [{ token := "r7", userId := 2, expiresAt := 900, isRevoked := false, createdAt := 3,
             lastUsedAt := none, ipAddress := none, userAgent := none }] "r7").2 "r7").2 "r7" :=
  revoke_refresh_token_idempotent
    [{ token := "r7", userId := 2, expiresAt := 900, isRevoked := false, createdAt := 3,
       lastUsedAt := none, ipAddress := none, userAgent := none }] "r7"
    (by decide) ⟨_, List.mem_singleton_self _, rfl, rfl⟩

/-! #### Active-count lemmas for the creation path -/

theorem minNat?_isSome (l : List Nat) (h : l ≠ []) : (minNat? l).isSome := by
  cases l with
  | nil => exact absurd rfl h
  | cons x xs =>
    unfold minNat?
    cases minNat? xs <;> simp

theorem minNat?_mem (l : List Nat) (m : Nat) (h : minNat? l = some m) : m ∈ l := by
  induction l generalizing m with
  | nil => simp [minNat?] at h
  | cons x xs ih =>
    unfold minNat? at h
    cases hxs : minNat? xs with
    | none =>
      rw [hxs] at h
      simp only [Option.some.injEq] at h
      exact h ▸ List.mem_cons_self x xs
    | some m' =>
      rw [hxs] at h
      simp only [Option.some.injEq] at h
      rcases Nat.le_total x m' with hle | hle
      · rw [Nat.min_eq_left hle] at h
        exact h ▸ List.mem_cons_self x xs
      · rw [Nat.min_eq_right hle] at h
        exact List.mem_cons_of_mem x (h ▸ ih m' hxs)

/-- `cleanup_user_tokens` only deletes records that are already expired, so the
active count is unchanged. -/
theorem active_count_cleanup (db : List RefreshTokenRec) (uid now : Nat) :
    active_count (cleanup_user_tokens db uid now) uid now = active_count db uid now := by
  unfold active_count cleanup_user_tokens
  rw [List.countP_filter]
  apply List.countP_congr
  intro r _
  by_cases ha : (r.userId == uid && !r.isRevoked && decide (now < r.expiresAt)) = true
  · have hexp : now < r.expiresAt := by
      simp only [Bool.and_eq_true, decide_eq_true_eq] at ha
      exact ha.2
    have hkeep : (!(r.userId == uid && decide (r.expiresAt + CLEANUP_RETENTION < now))) = true := by
      simp only [Bool.not_eq_true', Bool.and_eq_false_iff, decide_eq_false_iff_not]
      right
      omega
    simp [ha, hkeep]
  · simp [ha]

/-- Revoking one record that the unexpired-ledger hypothesis makes active
decreases the active count by exactly one. -/
theorem active_count_updateFirst_revoke (l : List RefreshTokenRec) (uid now m : Nat)
    (hunexp : ∀ r ∈ l, r.userId = uid → r.isRevoked = false → now < r.expiresAt)
    (hex : ∃ r ∈ l, (r.userId == uid && !r.isRevoked && r.createdAt == m) = true) :
    active_count (updateFirstRec (fun r => r.userId == uid && !r.isRevoked && r.createdAt == m)
      (fun r => { r with isRevoked := true }) l) uid now + 1 = active_count l uid now := by
  induction l with
  | nil => simp at hex
  | cons r rs ih =>
    by_cases hp : (r.userId == uid && !r.isRevoked && r.createdAt == m) = true
    · simp only [updateFirstRec, if_pos hp]
      have hact : (r.userId == uid && !r.isRevoked && decide (now < r.expiresAt)) = true := by
        simp only [Bool.and_eq_true, beq_iff_eq, Bool.not_eq_true'] at hp ⊢
        refine ⟨⟨hp.1.1, hp.1.2⟩, ?_⟩
        simp only [decide_eq_true_eq]
        exact hunexp r (List.mem_cons_self r rs) hp.1.1 hp.1.2
      unfold active_count
      rw [List.countP_cons, List.countP_cons]
      simp only [hact]
      norm_num
    · simp only [updateFirstRec, if_neg hp]
      have hex' : ∃ r' ∈ rs, (r'.userId == uid && !r'.isRevoked && r'.createdAt == m) = true := by
        obtain ⟨y, hy, hyp⟩ := hex
        rcases List.mem_cons.mp hy with h1 | h1
        · exact absurd (h1 ▸ hyp) hp
        · exact ⟨y, h1, hyp⟩
      have hunexp' : ∀ r' ∈ rs, r'.userId = uid → r'.isRevoked = false → now < r'.expiresAt :=
        fun r' hr' => hunexp r' (List.mem_cons_of_mem r hr')
      have := ih hunexp' hex'
      unfold active_count at this ⊢
      rw [List.countP_cons, List.countP_cons]
      omega

/-- Inserting one record raises the active count by at most one. -/
theorem active_count_insert_le (db : List RefreshTokenRec) (uid now : Nat) (tok : String)
    (ip agent : Option String) :
    active_count (insert_refresh_token db uid now tok ip agent) uid now ≤
      active_count db uid now + 1 := by
  unfold insert_refresh_token
  split
  · omega
  · unfold active_count
    rw [List.countP_append]
    have h1 : List.countP
        (fun r : RefreshTokenRec => r.userId == uid && !r.isRevoked && decide (now < r.expiresAt))
        [{ token := tok, userId := uid, expiresAt := now + REFRESH_TOKEN_EXPIRE_SECONDS,
           isRevoked := false, createdAt := now, lastUsedAt := none,
           ipAddress := ip, userAgent := agent }] ≤ 1 := by
      rw [List.countP_cons, List.countP_nil]
      split <;> omega
    omega

/-- When every non-revoked token of the owner is unexpired, the eviction step
revokes an active record, so the active count drops by exactly one. -/
theorem revoke_oldest_decreases (db : List RefreshTokenRec) (uid now : Nat)
    (hunexp : ∀ r ∈ db, r.userId = uid → r.isRevoked = false → now < r.expiresAt)
    (hpos : 0 < active_count db uid now) :
    active_count (revoke_oldest db uid) uid now + 1 = active_count db uid now := by
  obtain ⟨r, hr, hrp⟩ := List.countP_pos_iff.mp (by unfold active_count at hpos; exact hpos)
  have hrflt : r ∈ db.filter (fun r' => r'.userId == uid && !r'.isRevoked) := by
    rw [List.mem_filter]
    refine ⟨hr, ?_⟩
    simp only [Bool.and_eq_true] at hrp ⊢
    exact hrp.1
  have hne : ((db.filter (fun r' => r'.userId == uid && !r'.isRevoked)).map
      (fun r' => r'.createdAt)) ≠ [] := by
    intro h0
    rw [List.map_eq_nil_iff] at h0
    rw [h0] at hrflt
    simp at hrflt
  obtain ⟨m, hm⟩ := Option.isSome_iff_exists.mp (minNat?_isSome _ hne)
  have hmem := minNat?_mem _ m hm
  rw [List.mem_map] at hmem
  obtain ⟨r', hr', hr'c⟩ := hmem
  rw [List.mem_filter] at hr'
  have hex : ∃ x ∈ db, (x.userId == uid && !x.isRevoked && x.createdAt == m) = true := by
    refine ⟨r', hr'.1, ?_⟩
    simp only [Bool.and_eq_true] at hr' ⊢
    exact ⟨hr'.2, by simp [hr'c]⟩
  unfold revoke_oldest
  rw [hm]
  exact active_count_updateFirst_revoke db uid now m hunexp hex

/-- C2, counterexample to the claim as stated: the eviction query of
`create_refresh_token` filters only on `is_revoked == False` and orders by
`created_at`, without excluding expired rows.  Starting from five active
tokens plus one older, already-expired, non-revoked token, a create call
revokes the expired row and still inserts, leaving six active tokens —
exceeding `REFRESH_TOKEN_MAX_COUNT = 5`. -/
theorem create_refresh_token_limit_counterexample :
    ¬ (∀ (db : List RefreshTokenRec) (uid now : Nat) (tok : String),
        active_count (create_refresh_token db uid now tok none none) uid now ≤
          REFRESH_TOKEN_MAX_COUNT) := by
  intro hclaim
  have h6 : active_count (create_refresh_token
      [{ token := "t0", userId := 1, expiresAt := 50, isRevoked := false, createdAt := 0,
         lastUsedAt := none, ipAddress := none, userAgent := none },
       { token := "t1", userId := 1, expiresAt := 1000, isRevoked := false, createdAt := 1,
         lastUsedAt := none, ipAddress := none, userAgent := none },
       { token := "t2", userId := 1, expiresAt := 1000, isRevoked := false, createdAt := 2,
         lastUsedAt := none, ipAddress := none, userAgent := none },
       { token := "t3", userId := 1, expiresAt := 1000, isRevoked := false, createdAt := 3,
         lastUsedAt := none, ipAddress := none, userAgent := none },
       { token := "t4", userId := 1, expiresAt := 1000, isRevoked := false, createdAt := 4,
         lastUsedAt := none, ipAddress := none, userAgent := none },
       { token := "t5", userId := 1, expiresAt := 1000, isRevoked := false, createdAt := 5,
         lastUsedAt := none, ipAddress := none, userAgent := none }]
      1 100 "t6" none none) 1 100 = 6 := by decide
  have hb := hclaim
    [{ token := "t0", userId := 1, expiresAt := 50, isRevoked := false, createdAt := 0,
       lastUsedAt := none, ipAddress := none, userAgent := none },
     { token := "t1", userId := 1, expiresAt := 1000, isRevoked := false, createdAt := 1,
       lastUsedAt := none, ipAddress := none, userAgent := none },
     { token := "t2", userId := 1, expiresAt := 1000, isRevoked := false, createdAt := 2,
       lastUsedAt := none, ipAddress := none, userAgent := none },
     { token := "t3", userId := 1, expiresAt := 1000, isRevoked := false, createdAt := 3,
       lastUsedAt := none, ipAddress := none, userAgent := none },
     { token := "t4", userId := 1, expiresAt := 1000, isRevoked := false, createdAt := 4,
       lastUsedAt := none, ipAddress := none, userAgent := none },
     { token := "t5", userId := 1, expiresAt := 1000, isRevoked := false, createdAt := 5,
       lastUsedAt := none, ipAddress := none, userAgent := none }]
    1 100 "t6"
  rw [h6] at hb
  exact absurd hb (by decide)

/-- C2, amended: provided every non-revoked token of the owner is unexpired at
the time of the call (so the evicted oldest non-revoked row is genuinely
active), a `create_refresh_token` call never pushes the owner's count of
non-revoked, unexpired tokens above `REFRESH_TOKEN_MAX_COUNT`; applied after
each call of a sequence, the bound holds throughout.  Without that proviso the
bound fails, see `create_refresh_token_limit_counterexample`. -/
theorem create_refresh_token_bounded (db : List RefreshTokenRec) (uid now : Nat)
    (tok : String) (ip agent : Option String)
    (hunexp : ∀ r ∈ db, r.userId = uid → r.isRevoked = false → now < r.expiresAt)
    (hbound : active_count db uid now ≤ REFRESH_TOKEN_MAX_COUNT) :
    active_count (create_refresh_token db uid now tok ip agent) uid now ≤
      REFRESH_TOKEN_MAX_COUNT := by
  have e1 := active_count_cleanup db uid now
  have hunexp1 : ∀ r ∈ cleanup_user_tokens db uid now,
      r.userId = uid → r.isRevoked = false → now < r.expiresAt :=
    fun r hr => hunexp r (List.mem_of_mem_filter hr)
  have hK : 0 < REFRESH_TOKEN_MAX_COUNT := by decide
  unfold create_refresh_token evict_if_full
  by_cases hc : REFRESH_TOKEN_MAX_COUNT ≤ active_count (cleanup_user_tokens db uid now) uid now
  · rw [if_pos hc]
    have hpos : 0 < active_count (cleanup_user_tokens db uid now) uid now := by omega
    have e2 := revoke_oldest_decreases (cleanup_user_tokens db uid now) uid now hunexp1 hpos
    have e3 := active_count_insert_le (revoke_oldest (cleanup_user_tokens db uid now) uid)
      uid now tok ip agent
    omega
  · rw [if_neg hc]
    have e3 := active_count_insert_le (cleanup_user_tokens db uid now) uid now tok ip agent
    omega

/-- Concrete instantiation of `create_refresh_token_bounded`: five active
unexpired tokens, a sixth creation evicts one and the count stays at five. -/
theorem create_refresh_token_bounded_witness :
    active_count (create_refresh_token
      [{ token := "t1", userId := 1, expiresAt := 1000, isRevoked := false, createdAt := 1,
         lastUsedAt := none, ipAddress := none, userAgent := none },
       { token := "t2", userId := 1, expiresAt := 1000, isRevoked := false, createdAt := 2,
         lastUsedAt := none, ipAddress := none, userAgent := none },
       { token := "t3", userId := 1, expiresAt := 1000, isRevoked := false, createdAt := 3,
         lastUsedAt := none, ipAddress := none, userAgent := none },
       { token := "t4", userId := 1, expiresAt := 1000, isRevoked := false, createdAt := 4,
         lastUsedAt := none, ipAddress := none, userAgent := none },
       { token := "t5", userId := 1, expiresAt := 1000, isRevoked := false, createdAt := 5,
         lastUsedAt := none, ipAddress := none, userAgent := none }]
      1 100 "t6" none none) 1 100 ≤ REFRESH_TOKEN_MAX_COUNT :=
  create_refresh_token_bounded
    [{ token := "t1", userId := 1, expiresAt := 1000, isRevoked := false, createdAt := 1,
       lastUsedAt := none, ipAddress := none, userAgent := none },
     { token := "t2", userId := 1, expiresAt := 1000, isRevoked := false, createdAt := 2,
       lastUsedAt := none, ipAddress := none, userAgent := none },
     { token := "t3", userId := 1, expiresAt := 1000, isRevoked := false, createdAt := 3,
       lastUsedAt := none, ipAddress := none, userAgent := none },
     { token := "t4", userId := 1, expiresAt := 1000, isRevoked := false, createdAt := 4,
       lastUsedAt := none, ipAddress := none, userAgent := none },
     { token := "t5", userId := 1, expiresAt := 1000, isRevoked := false, createdAt := 5,
       lastUsedAt := none, ipAddress := none, userAgent := none }]
    1 100 "t6" none none (by decide) (by decide)

/-- C7, counterexample to the claim as stated: python-jose validates
`exp < now` strictly (zero leeway, whole-second timestamps), so a validly
signed token whose `exp` claim equals the current second — "at or before the
current time" — is still accepted by `decode_token` and its claims are
returned. -/
theorem decode_token_boundary_counterexample :
    ¬ (∀ (t : JwtToken) (now e : Nat), t.exp = some e → e ≤ now →
        ∀ p : TokenPayload, decode_token t now ≠ Except.ok p) := by
  intro hclaim
  exact hclaim
    { wellFormed := true, sigValid := true, exp := some 100,
      sub := some "u1@example.com", role := some "patient" } 100 100 rfl (le_refl 100)
    { sub := some "u1@example.com", role := some "patient", exp := some 100 } rfl

/-- C7, amended: every token whose `exp` claim lies strictly before the
current whole-second timestamp fails `decode_token` — for valid, invalid and
malformed signatures alike; no claims are ever returned.  (At `exp = now`
exactly, a validly signed token is still accepted, see
`decode_token_boundary_counterexample`.) -/
theorem decode_token_expired_always_fails (t : JwtToken) (now e : Nat)
    (hexp : t.exp = some e) (hlt : e < now) :
    ∀ p : TokenPayload, decode_token t now ≠ Except.ok p := by
  intro p
  unfold decode_token
  by_cases hw : t.wellFormed
  · by_cases hs : t.sigValid
    · rw [hexp]
      simp [hw, hs, hlt]
    · simp [hw, hs]
  · simp [hw]

/-- Concrete instantiation of `decode_token_expired_always_fails` at
`exp = 99 < now = 100` with a valid signature. -/
theorem decode_token_expired_always_fails_witness :
    ({ wellFormed := true, sigValid := true, exp := some 99,
       sub := some "u1@example.com", role := some "patient" } : JwtToken).exp = some 99 ∧
    99 < 100 ∧
    ∀ p : TokenPayload,
      decode_token
        { wellFormed := true, sigValid := true, exp := some 99,
          sub := some "u1@example.com", role := some "patient" } 100 ≠ Except.ok p :=
  ⟨rfl, by decide,
   decode_token_expired_always_fails
     { wellFormed := true, sigValid := true, exp := some 99,
       sub := some "u1@example.com", role := some "patient" } 100 99 rfl (by decide)⟩

/-- C10: whenever the durable store is unreachable while `is_blacklisted`
queries it (any exception in the lookup), the handler returns `False` — the
revocation check fails open; the same token is reported blacklisted when the
store answers with a matching, recent entry. -/
theorem is_blacklisted_fails_open :
    (∀ (h : List Char) (now : Nat), is_blacklisted (Except.error ()) h now = false) ∧
    is_blacklisted (Except.ok
      [{ email := "u1@example.com", attemptTime := 1000, success := false,
         ipAddress := "blacklist_system", userAgent := "token_blacklist",
         failureReason := blacklistReason "logout" (List.replicate 64 'a') }])
      (List.replicate 64 'a') 1000 = true := by
  constructor
  · intro h now
    rfl
  · decide

/-! #### C9: entries of `revoke_user_tokens` never match a hash lookup -/

/-- The rows written by `revoke_user_tokens` end in the literal
`"revoked_all_tokens"`, whose last character `'s'` is not a hex digit, so the
`LIKE "blacklisted:%:{token_hash}"` lookup never matches them for any SHA-256
hex digest. -/
theorem likeBlacklistMatch_revokeAll_false (reason : String) (h : List Char)
    (hh : isHex64 h) : likeBlacklistMatch h (revokeAllReason reason) = false := by
  by_contra hne
  rw [Bool.not_eq_false] at hne
  unfold likeBlacklistMatch at hne
  simp only [Bool.and_eq_true] at hne
  have hsuf : (':' :: h) <:+ revokeAllReason reason :=
    List.isSuffixOf_iff_suffix.mp hne.1.2
  obtain ⟨t, ht⟩ := hsuf
  have hhne : h ≠ [] := by
    intro h0
    rw [h0] at hh
    simp [isHex64] at hh
  have h1 : (revokeAllReason reason).getLast? = h.getLast? := by
    rw [← ht]
    rw [List.getLast?_append_of_ne_nil t (List.cons_ne_nil ':' h)]
    have hch : (':' :: h) = [':'] ++ h := rfl
    rw [hch, List.getLast?_append_of_ne_nil [':'] hhne]
  have h2 : (revokeAllReason reason).getLast? = some 's' := by
    unfold revokeAllReason
    rw [List.getLast?_append_of_ne_nil _ (List.cons_ne_nil ':' _)]
    decide
  rw [h1] at h2
  have hmem : 's' ∈ h := List.mem_of_getLast?_eq_some h2
  have := hh.2 's' hmem
  simp [isHexChar] at this

/-- The rows appended by `revoke_user_tokens` fail the whole row filter of
`is_blacklisted`, for any queried hash of SHA-256 shape. -/
theorem blacklistRowMatch_revokeAll_false (reason email : String) (now : Nat)
    (h : List Char) (hh : isHex64 h) :
    blacklistRowMatch h
      { email := email, attemptTime := now, success := false,
        ipAddress := "blacklist_system", userAgent := "user_revocation",
        failureReason := revokeAllReason reason } = false := by
  unfold blacklistRowMatch
  rw [likeBlacklistMatch_revokeAll_false reason h hh]
  rfl

/-- Appending rows that all fail the filter leaves `find?` unchanged. -/
theorem find?_append_no_match {α : Type} (p : α → Bool) (l new : List α)
    (hnew : ∀ e ∈ new, p e = false) :
    (l ++ new).find? p = l.find? p := by
  induction l with
  | nil =>
    simp only [List.nil_append, List.find?_nil]
    apply List.find?_eq_none.mpr
    intro e he
    rw [hnew e he]
    exact Bool.false_ne_true
  | cons x xs ih =>
    by_cases hp : p x
    · simp [List.find?_cons, hp]
    · simp only [List.cons_append, List.find?_cons, hp]
      simpa [hp] using ih

/-- C9: the blacklist rows written by `revoke_user_tokens` carry the literal
`"revoked_all_tokens"` in place of a token hash, while `is_blacklisted`
matches only rows ending in the SHA-256 hex digest of the queried token; hence
no `revoke_user_tokens` call ever changes `is_blacklisted` for any token. -/
theorem revoke_user_tokens_no_blacklist_effect (db : List LoginAttemptRow)
    (email reason : String) (now now2 : Nat) (h : List Char) (hh : isHex64 h) :
    is_blacklisted (Except.ok (revoke_user_tokens db email reason now).2) h now2 =
      is_blacklisted (Except.ok db) h now2 := by
  show is_blacklisted_rows (revoke_user_tokens db email reason now).2 h now2 =
    is_blacklisted_rows db h now2
  have h0 : (revoke_user_tokens db email reason now).2 =
      db ++ List.replicate ((db.filter (recentSuccessRow email now)).length)
        { email := email, attemptTime := now, success := false,
          ipAddress := "blacklist_system", userAgent := "user_revocation",
          failureReason := revokeAllReason reason } := rfl
  have key : (revoke_user_tokens db email reason now).2.find? (blacklistRowMatch h) =
      db.find? (blacklistRowMatch h) := by
    rw [h0]
    apply find?_append_no_match
    intro e he
    rw [List.eq_of_mem_replicate he]
    exact blacklistRowMatch_revokeAll_false reason email now h hh
  unfold is_blacklisted_rows
  rw [key]

/-- Concrete instantiation of `revoke_user_tokens_no_blacklist_effect`:
revoking all tokens of a user with one recent successful login does not
blacklist an access token whose hash is 64 `'a'` characters. -/
theorem revoke_user_tokens_no_blacklist_effect_witness :
    isHex64 (List.replicate 64 'a') ∧
    is_blacklisted (Except.ok
      (revoke_user_tokens
        [{ email := "u1@example.com", attemptTime := 90, success := true,
           ipAddress := "1.2.3.4", userAgent := "browser", failureReason := [] }]
        "u1@example.com" "admin_revocation" 100).2)
      (List.replicate 64 'a') 100 =
    is_blacklisted (Except.ok
      [{ email := "u1@example.com", attemptTime := 90, success := true,
         ipAddress := "1.2.3.4", userAgent := "browser", failureReason := [] }])
      (List.replicate 64 'a') 100 :=
  ⟨by decide,
   revoke_user_tokens_no_blacklist_effect
     [{ email := "u1@example.com", attemptTime := 90, success := true,
        ipAddress := "1.2.3.4", userAgent := "browser", failureReason := [] }]
     "u1@example.com" "admin_revocation" 100 100 (List.replicate 64 'a') (by decide)⟩

/-- A row written by `add_to_blacklist` does match the later hash lookup for
the same token hash. -/
theorem likeBlacklistMatch_blacklistReason (reason : String) (h : List Char) :
    likeBlacklistMatch h (blacklistReason reason h) = true := by
  unfold likeBlacklistMatch blacklistReason
  have hp : "blacklisted:".toList.isPrefixOf
      ("blacklisted:".toList ++ reason.toList ++ ':' :: h) = true := by
    rw [List.isPrefixOf_iff_prefix, List.append_assoc]
    exact List.prefix_append _ _
  have hs : (':' :: h).isSuffixOf
      ("blacklisted:".toList ++ reason.toList ++ ':' :: h) = true := by
    rw [List.isSuffixOf_iff_suffix]
    exact List.suffix_append _ _
  have hl : decide ("blacklisted:".toList.length + 1 + h.length ≤
      ("blacklisted:".toList ++ reason.toList ++ ':' :: h).length) = true := by
    simp only [List.length_append, List.length_cons, decide_eq_true_eq]
    omega
  rw [hp, hs, hl]
  rfl

/-- C1 (code bug): after a successful `logout`, the revocation registry does
record the presented access token — `is_blacklisted` answers `true` for its
hash — yet the verify path `get_current_user` authenticates the very same
bearer token exactly as before: it consults only Supabase auth and the profile
table and never performs a blacklist lookup, and its error taxonomy
(`VerifyErr`) has no revoked outcome at all.  The claim's required `Revoked`
rejection therefore never happens. -/
theorem logout_not_checked_by_verify (hashFn : String → List Char) :
    get_current_user true (fun t => if t = "tok1" then some 7 else none)
      (fun _ => true) "tok1" = Except.ok 7 ∧
    is_blacklisted (Except.ok
      (logout { attempts := [], refreshTokens := [] } (hashFn "tok1")
        "u1@example.com" 7 50).attempts) (hashFn "tok1") 50 = true ∧
    get_current_user true (fun t => if t = "tok1" then some 7 else none)
      (fun _ => true) "tok1" = Except.ok 7 := by
  refine ⟨rfl, ?_, rfl⟩
  show is_blacklisted_rows
    [{ email := "u1@example.com", attemptTime := 50, success := false,
       ipAddress := "blacklist_system", userAgent := "token_blacklist",
       failureReason := blacklistReason "logout" (hashFn "tok1") }]
    (hashFn "tok1") 50 = true
  unfold is_blacklisted_rows
  have hm : blacklistRowMatch (hashFn "tok1")
      { email := "u1@example.com", attemptTime := 50, success := false,
        ipAddress := "blacklist_system", userAgent := "token_blacklist",
        failureReason := blacklistReason "logout" (hashFn "tok1") } = true := by
    unfold blacklistRowMatch
    rw [likeBlacklistMatch_blacklistReason]
    rfl
  rw [List.find?_cons_of_pos _ hm]
  rfl

/-- C3 (code bug): a login with an unknown identifier and a login with a known
identifier but wrong password both record a failed attempt in the guard, but
their external error shapes differ: `authenticate_user` returns `False` for an
unknown user (the endpoint then raises 401 `{"message": "Authentication
failed"}` with a `WWW-Authenticate` header), while a wrong password raises 401
`{"message": "Incorrect email or password", "remaining_attempts": ...,
"account_locked": ...}` — different message, different body keys, different
headers, so the two causes are distinguishable, against the source's own
anti-enumeration comment and the endpoint comment claiming the `False` branch
is unreachable. -/
theorem login_error_shapes_differ :
    (authenticate_user ⟨true, false⟩ ⟨none, none⟩ [] "ghost@example.com" false false 10
      "1.2.3.4" "ua").1 = AuthOutcome.userNotFound ∧
    (authenticate_user ⟨true, false⟩ ⟨none, none⟩ [] "u1@example.com" true false 10
      "1.2.3.4" "ua").1 = AuthOutcome.wrongPassword 3 false ∧
    (authenticate_user ⟨true, false⟩ ⟨none, none⟩ [] "ghost@example.com" false false 10
      "1.2.3.4" "ua").2.1 = { failCnt := some (1, 130), lockKey := none } ∧
    (authenticate_user ⟨true, false⟩ ⟨none, none⟩ [] "u1@example.com" true false 10
      "1.2.3.4" "ua").2.1 = { failCnt := some (1, 130), lockKey := none } ∧
    login_error_shape AuthOutcome.userNotFound ≠
      login_error_shape (AuthOutcome.wrongPassword 3 false) := by
  refine ⟨rfl, rfl, rfl, rfl, ?_⟩
  decide

/-- C5, counterexample to the claim as stated: the backend choice is made once
at module import (`REDIS_AVAILABLE`); when Redis was reachable at import but a
Redis command fails at operation time, the lock check catches the exception
and returns "not locked" without consulting the durable backend — here the
durable `login_attempts` table holds three recent failures and reports the
account locked for 80 more seconds, yet the dispatched check answers
`(false, 0)`. -/
theorem lock_check_no_runtime_fallback_counterexample :
    ¬ (∀ (conn : RedisConn) (s : GuardState) (db : List LoginAttemptRow)
        (email : String) (now : Nat), conn.opFails = true →
        lock_check_dispatch conn s db email now = is_account_locked_db db email now) := by
  intro hclaim
  have h := hclaim ⟨true, true⟩ ⟨none, none⟩
    [{ email := "u1@example.com", attemptTime := 0, success := false,
       ipAddress := "1.2.3.4", userAgent := "ua", failureReason := [] },
     { email := "u1@example.com", attemptTime := 5, success := false,
       ipAddress := "1.2.3.4", userAgent := "ua", failureReason := [] },
     { email := "u1@example.com", attemptTime := 10, success := false,
       ipAddress := "1.2.3.4", userAgent := "ua", failureReason := [] }]
    "u1@example.com" 50 rfl
  have h1 : lock_check_dispatch ⟨true, true⟩ ⟨none, none⟩
    [{ email := "u1@example.com", attemptTime := 0, success := false,
       ipAddress := "1.2.3.4", userAgent := "ua", failureReason := [] },
     { email := "u1@example.com", attemptTime := 5, success := false,
       ipAddress := "1.2.3.4", userAgent := "ua", failureReason := [] },
     { email := "u1@example.com", attemptTime := 10, success := false,
       ipAddress := "1.2.3.4", userAgent := "ua", failureReason := [] }]
    "u1@example.com" 50 = (false, 0) := by decide
  have h2 : is_account_locked_db
    [{ email := "u1@example.com", attemptTime := 0, success := false,
       ipAddress := "1.2.3.4", userAgent := "ua", failureReason := [] },
     { email := "u1@example.com", attemptTime := 5, success := false,
       ipAddress := "1.2.3.4", userAgent := "ua", failureReason := [] },
     { email := "u1@example.com", attemptTime := 10, success := false,
       ipAddress := "1.2.3.4", userAgent := "ua", failureReason := [] }]
    "u1@example.com" 50 = (true, 80) := by decide
  rw [h1, h2] at h
  exact absurd h (by decide)

/-- C5, amended: the guard picks its backend once, from the import-time
`REDIS_AVAILABLE` flag.  When that flag is false every lock check goes to the
durable backend; when it is true and a Redis command fails at operation time,
the lock check silently answers `(false, 0)` and failure recording returns the
dummy count 1 with every backend untouched — the durable store is never
consulted at operation time and no infrastructure error is surfaced. -/
theorem lock_check_dispatch_import_time (conn : RedisConn) (s : GuardState)
    (db : List LoginAttemptRow) (email : String) (now : Nat) :
    (conn.availableAtImport = false →
      lock_check_dispatch conn s db email now = is_account_locked_db db email now) ∧
    (conn.availableAtImport = true → conn.opFails = true →
      lock_check_dispatch conn s db email now = (false, 0) ∧
      record_failed_login conn s now = (1, s)) := by
  constructor
  · intro h
    unfold lock_check_dispatch
    rw [h]
    rfl
  · intro h1 h2
    constructor
    · unfold lock_check_dispatch is_account_locked
      rw [h1, h2]
      rfl
    · unfold record_failed_login
      rw [h1, h2]
      rfl

/-- Concrete instantiation of `lock_check_dispatch_import_time` for both
import-time outcomes. -/
theorem lock_check_dispatch_import_time_witness :
    lock_check_dispatch ⟨false, false⟩ ⟨none, none⟩ [] "u1@example.com" 5 =
      is_account_locked_db [] "u1@example.com" 5 ∧
    (lock_check_dispatch ⟨true, true⟩ ⟨none, none⟩ [] "u1@example.com" 5 = (false, 0) ∧
      record_failed_login ⟨true, true⟩ ⟨none, none⟩ 5 = (1, ⟨none, none⟩)) :=
  ⟨(lock_check_dispatch_import_time ⟨false, false⟩ ⟨none, none⟩ [] "u1@example.com" 5).1 rfl,
   (lock_check_dispatch_import_time ⟨true, true⟩ ⟨none, none⟩ [] "u1@example.com" 5).2 rfl rfl⟩

/-- C4: with `MAX_LOGIN_ATTEMPTS = 3` and `LOCKOUT_TIME = 120` on the Redis
guard path — three consecutive failed logins, each within the window of the
previous, transition the identifier to locked (`account_lock` key set to
`t3 + 120`, failure counter reset); a fourth attempt within 120 seconds is
rejected as locked-out with remaining time in `(0, 120]`; once 120 seconds
have elapsed, a correct-password login succeeds and clears all failure and
lock state. -/
theorem lockout_determinism (t1 t2 t3 t4 t5 : Nat) (dbAtt : List LoginAttemptRow)
    (email ip ua : String) (s1 s2 s3 : GuardState)
    (hw2 : t2 < t1 + LOCKOUT_TIME) (hw3 : t3 < t2 + LOCKOUT_TIME)
    (h34 : t3 ≤ t4) (hw4 : t4 < t3 + LOCKOUT_TIME) (h5 : t3 + LOCKOUT_TIME ≤ t5)
    (hs1 : s1 = (authenticate_user ⟨true, false⟩ ⟨none, none⟩ dbAtt email true false t1
      ip ua).2.1)
    (hs2 : s2 = (authenticate_user ⟨true, false⟩ s1 dbAtt email true false t2 ip ua).2.1)
    (hs3 : s3 = (authenticate_user ⟨true, false⟩ s2 dbAtt email true false t3 ip ua).2.1) :
    s3 = { failCnt := none, lockKey := some (t3 + LOCKOUT_TIME, t3 + LOCKOUT_TIME) } ∧
    (authenticate_user ⟨true, false⟩ s3 dbAtt email true true t4 ip ua).1 =
      AuthOutcome.lockedOut (t3 + LOCKOUT_TIME - t4) ∧
    0 < t3 + LOCKOUT_TIME - t4 ∧ t3 + LOCKOUT_TIME - t4 ≤ LOCKOUT_TIME ∧
    (authenticate_user ⟨true, false⟩ s3 dbAtt email true true t5 ip ua).1 =
      AuthOutcome.success ∧
    (authenticate_user ⟨true, false⟩ s3 dbAtt email true true t5 ip ua).2.1 =
      { failCnt := none, lockKey := none } := by
  have e1 : s1 = { failCnt := some (1, t1 + LOCKOUT_TIME), lockKey := none } := hs1
  have e2 : s2 = { failCnt := some (2, t2 + LOCKOUT_TIME), lockKey := none } := by
    rw [hs2, e1]
    unfold authenticate_user lock_check_dispatch is_account_locked is_account_locked_core
      record_failed_login record_failed_login_core redisRead ENABLE_ACCOUNT_LOCKING
      MAX_LOGIN_ATTEMPTS
    simp [hw2]
  have e3 : s3 = { failCnt := none, lockKey := some (t3 + LOCKOUT_TIME, t3 + LOCKOUT_TIME) } := by
    rw [hs3, e2]
    unfold authenticate_user lock_check_dispatch is_account_locked is_account_locked_core
      record_failed_login record_failed_login_core redisRead ENABLE_ACCOUNT_LOCKING
      MAX_LOGIN_ATTEMPTS
    simp [hw3]
  have e4 : authenticate_user ⟨true, false⟩
      { failCnt := none, lockKey := some (t3 + LOCKOUT_TIME, t3 + LOCKOUT_TIME) }
      dbAtt email true true t4 ip ua =
      (AuthOutcome.lockedOut (t3 + LOCKOUT_TIME - t4),
       { failCnt := none, lockKey := some (t3 + LOCKOUT_TIME, t3 + LOCKOUT_TIME) }, dbAtt) := by
    unfold authenticate_user lock_check_dispatch is_account_locked is_account_locked_core
      redisRead ENABLE_ACCOUNT_LOCKING
    simp [hw4]
  have hnot5 : ¬ (t5 < t3 + LOCKOUT_TIME) := by omega
  have e5 : authenticate_user ⟨true, false⟩
      { failCnt := none, lockKey := some (t3 + LOCKOUT_TIME, t3 + LOCKOUT_TIME) }
      dbAtt email true true t5 ip ua =
      (AuthOutcome.success, { failCnt := none, lockKey := none }, dbAtt) := by
    unfold authenticate_user lock_check_dispatch is_account_locked is_account_locked_core
      clear_login_attempts redisRead ENABLE_ACCOUNT_LOCKING
    simp [hnot5]
  refine ⟨e3, ?_, ?_, ?_, ?_, ?_⟩
  · rw [e3, e4]
  · omega
  · omega
  · rw [e3, e5]
  · rw [e3, e5]

/-- Concrete instantiation of `lockout_determinism` at failure times 0, 10,
20, a locked attempt at 50 (remaining 90 s), and a successful login at 140. -/
theorem lockout_determinism_witness :
    ((authenticate_user ⟨true, false⟩
        (authenticate_user ⟨true, false⟩
          (authenticate_user ⟨true, false⟩ ⟨none, none⟩ [] "u1@example.com" true false 0
            "ip" "ua").2.1
          [] "u1@example.com" true false 10 "ip" "ua").2.1
        [] "u1@example.com" true false 20 "ip" "ua").2.1 : GuardState) =
      { failCnt := none, lockKey := some (140, 140) } ∧
    (authenticate_user ⟨true, false⟩
        { failCnt := none, lockKey := some (140, 140) }
        [] "u1@example.com" true true 50 "ip" "ua").1 = AuthOutcome.lockedOut 90 := by
  have h := lockout_determinism 0 10 20 50 140 [] "u1@example.com" "ip" "ua"
    (authenticate_user ⟨true, false⟩ ⟨none, none⟩ [] "u1@example.com" true false 0
      "ip" "ua").2.1
    (authenticate_user ⟨true, false⟩
      (authenticate_user ⟨true, false⟩ ⟨none, none⟩ [] "u1@example.com" true false 0
        "ip" "ua").2.1
      [] "u1@example.com" true false 10 "ip" "ua").2.1
    (authenticate_user ⟨true, false⟩
      (authenticate_user ⟨true, false⟩
        (authenticate_user ⟨true, false⟩ ⟨none, none⟩ [] "u1@example.com" true false 0
          "ip" "ua").2.1
        [] "u1@example.com" true false 10 "ip" "ua").2.1
      [] "u1@example.com" true false 20 "ip" "ua").2.1
    (by decide) (by decide) (by decide) (by decide) (by decide) rfl rfl rfl
  refine ⟨?_, ?_⟩
  · exact h.1
  · have h2 := h.2.1
    rw [h.1] at h2
    exact h2
